import Mathlib

/-!
Verification of the service-appointment creation handler
(`src/handlers/create.js` of `service_appointment_api`).

The handler is shallowly embedded as a total Lean function. JavaScript
dynamic values reaching the five payload fields are modelled by `JsVal`
(absent key, string, array of strings, or any other value carrying its
truthiness and its string interpolation). The DynamoDB store is a list of
items; the external collaborators (table name, query/put failure injection,
clock, uuid generator, `Date` parsing) are a `Deps` record. Response bodies
are structured values standing for their JSON encodings.
-/

/-- A JavaScript value as observed by the handler's checks on a decoded
payload field: absent (`undefined`), a string, an array of strings, or any
other value recorded by its truthiness and its template-literal rendering. -/
inductive JsVal where
  | undefined : JsVal
  | str (s : String) : JsVal
  | arr (xs : List String) : JsVal
  | other (truthyFlag : Bool) (rendered : String) : JsVal
  deriving Repr, DecidableEq

/-- JavaScript truthiness, as used by `if (!data[field])`: `undefined` and
the empty string are falsy; every array (even `[]`) is truthy. -/
def JsVal.truthy : JsVal → Bool
  | .undefined => false
  | .str s => s ≠ ""
  | .arr _ => true
  | .other t _ => t

/-- Template-literal interpolation of a value, as in
`` `${data.location}#${data.appointmentTime}` ``. -/
def JsVal.interp : JsVal → String
  | .undefined => "undefined"
  | .str s => s
  | .arr xs => String.intercalate "," xs
  | .other _ r => r

/-- `Array.isArray(v) && v.length > 0`, the shape check applied to
`data.services`. -/
def JsVal.servicesOk : JsVal → Bool
  | .arr (_ :: _) => true
  | _ => false

/-- The decoded request payload restricted to the five fields the handler
reads plus nothing else (other keys are never inspected). -/
structure Payload where
  fullName : JsVal
  location : JsVal
  appointmentTime : JsVal
  car : JsVal
  services : JsVal
  deriving Repr, DecidableEq

/-- The fixed iteration order of the required-field loop in the source. -/
def requiredFields : List String :=
  ["fullName", "location", "appointmentTime", "car", "services"]

/-- Field access `data[field]` for the five required field names. -/
def Payload.get (d : Payload) : String → JsVal
  | "fullName" => d.fullName
  | "location" => d.location
  | "appointmentTime" => d.appointmentTime
  | "car" => d.car
  | "services" => d.services
  | _ => .undefined

/-- The derived uniqueness key
`` `${data.location}#${data.appointmentTime}` ``. -/
def locationTimeKey (d : Payload) : String :=
  d.location.interp ++ "#" ++ d.appointmentTime.interp

/-- An appointment record as assembled by the handler and stored in
DynamoDB, field for field in source order. -/
structure Item where
  id : String
  fullName : JsVal
  location : JsVal
  appointmentTime : JsVal
  locationTimeKey : String
  car : JsVal
  services : JsVal
  createdAt : String
  updatedAt : String
  deriving Repr, DecidableEq

/-- Store-provided error detail (`error.message`, `error.code`) surfaced in
500 responses. -/
structure StoreError where
  message : String
  code : String
  deriving Repr, DecidableEq

/-- External collaborators of one invocation: the configured table name,
injected failures of the two store round trips, the clock reading
(`new Date().toISOString()`), the generated uuid, and the host `Date`
parser (`dateOk s` iff `new Date(s).getTime()` is not `NaN`). -/
structure Deps where
  tableName : String
  queryShouldFail : Option StoreError
  putShouldFail : Option StoreError
  now : String
  freshId : String
  dateOk : String → Bool

/-- The query parameters built for the conflict check (`getParams` in the
source), echoed in the query-failure response body. -/
structure QueryParams where
  tableName : String
  indexName : String
  keyCondition : String
  keyValue : String
  deriving Repr, DecidableEq

/-- `getParams` for a given table and derived key. -/
def mkQueryParams (tn key : String) : QueryParams :=
  ⟨tn, "locationTimeIndex", "locationTimeKey = :locationTimeKey", key⟩

/-- The put parameters (`params` in the source), echoed in the
write-failure response body. -/
structure PutParams where
  tableName : String
  item : Item
  condition : String
  deriving Repr, DecidableEq

/-- A response body, standing for its JSON encoding. -/
inductive Body where
  | msg (message : String) : Body
  | created (message : String) (appointmentId : String) (appointment : Item) : Body
  | queryFail (message error code time tableName : String) (params : QueryParams) : Body
  | putFail (message error code time tableName : String) (params : PutParams) : Body
  | internalFail (message error stack time : String) : Body
  deriving Repr, DecidableEq

/-- The handler's HTTP-shaped return value. -/
structure Response where
  statusCode : Nat
  headers : List (String × String)
  body : Body
  deriving Repr, DecidableEq

/-- The one header object every return site uses. -/
def jsonHeaders : List (String × String) := [("Content-Type", "application/json")]

/-- 400 response with a plain message body. -/
def badRequest (m : String) : Response := ⟨400, jsonHeaders, .msg m⟩

/-- The inbound event: a direct Lambda-console invocation carrying the
payload itself, or an API-Gateway event with a truthy string body whose
`JSON.parse` either yields a payload or throws. -/
inductive Event where
  | direct (data : Payload) : Event
  | encoded (decoded : Option Payload) : Event
  deriving Repr

/-- Result of one invocation: the response, the store state after it, and
how many `put` round trips were attempted. -/
structure HResult where
  response : Response
  store : List Item
  putCalls : Nat
  deriving Repr

/-- The record assembled at step "Prepare item for DynamoDB". -/
def mkItem (data : Payload) (deps : Deps) : Item :=
  ⟨deps.freshId, data.fullName, data.location, data.appointmentTime,
   locationTimeKey data, data.car, data.services, deps.now, deps.now⟩

/-- The conditional write `dynamoDb.put` with
`ConditionExpression: attribute_not_exists(id)`: fails when failure is
injected or when an item with the same primary key `id` already exists;
otherwise appends the item. -/
def putResult (deps : Deps) (store : List Item) (item : Item) :
    Except StoreError (List Item) :=
  match deps.putShouldFail with
  | some e => .error e
  | none =>
    if store.any (fun it => it.id == item.id) then
      .error ⟨"The conditional request failed", "ConditionalCheckFailedException"⟩
    else
      .ok (store ++ [item])

/-- Conflict check and conditional insert: the part of the handler after
all validation has passed (key derivation, query with its own try/catch,
409 on a non-empty match list, item construction, put with its own
try/catch). -/
def conflictAndWrite (data : Payload) (deps : Deps) (store : List Item) : HResult :=
  let key := locationTimeKey data
  match deps.queryShouldFail with
  | some e =>
    ⟨⟨500, jsonHeaders,
      .queryFail "Could not process appointment request" e.message e.code deps.now
        deps.tableName (mkQueryParams deps.tableName key)⟩, store, 0⟩
  | none =>
    let existing := store.filter (fun it => it.locationTimeKey == key)
    if existing.length > 0 then
      ⟨⟨409, jsonHeaders,
        .msg "This appointment time is already booked at this location"⟩, store, 0⟩
    else
      let item := mkItem data deps
      match putResult deps store item with
      | .error e =>
        ⟨⟨500, jsonHeaders,
          .putFail "Could not create appointment" e.message e.code deps.now
            deps.tableName ⟨deps.tableName, item, "attribute_not_exists(id)"⟩⟩, store, 1⟩
      | .ok newStore =>
        ⟨⟨200, jsonHeaders,
          .created "Appointment created successfully" deps.freshId item⟩, newStore, 1⟩

/-- Validation pipeline on the decoded payload, then conflict check and
write: required-field loop in fixed order, services shape check, date
parse check. -/
def handleData (data : Payload) (deps : Deps) (store : List Item) : HResult :=
  match requiredFields.find? (fun f => !(data.get f).truthy) with
  | some field => ⟨badRequest ("Missing required field: " ++ field), store, 0⟩
  | none =>
    if data.services.servicesOk then
      if deps.dateOk data.appointmentTime.interp then
        conflictAndWrite data deps store
      else
        ⟨badRequest "Invalid date format for appointmentTime", store, 0⟩
    else
      ⟨badRequest "Services must be a non-empty array", store, 0⟩

/-- The Lambda handler: decode (API-Gateway body vs direct invocation),
then the validation and store pipeline. -/
def handler (event : Event) (deps : Deps) (store : List Item) : HResult :=
  match event with
  | .encoded none => ⟨badRequest "Invalid request body format", store, 0⟩
  | .encoded (some data) => handleData data deps store
  | .direct data => handleData data deps store

/-- The outermost catch block: any error escaping the pipeline unclassified
is reported as 500 "Internal server error" with message, stack and time. -/
structure JsError where
  message : String
  stack : String
  deriving Repr, DecidableEq

/-- The response the outermost catch produces from an unclassified error. -/
def internalErrorResponse (e : JsError) (now : String) : Response :=
  ⟨500, jsonHeaders, .internalFail "Internal server error" e.message e.stack now⟩

/-- The Jane Doe payload of the spec's concrete scenario. -/
def janeDoe : Payload :=
  ⟨.str "Jane Doe", .str "Farrish Subaru", .str "2025-04-20T15:30:00Z",
   .str "Subaru Outback", .arr ["Oil Change", "Tire Rotation"]⟩

/-- Healthy collaborators for concrete runs: no injected store failure, a
fixed clock, a fixed fresh uuid, a date parser accepting everything. -/
def janeDeps : Deps :=
  ⟨"service-appointment-api-dev", none, none, "2025-04-01T00:00:00.000Z",
   "test-uuid-12345", fun _ => true⟩

/-- C1: For every valid request (all five required fields truthy, services a
non-empty array, appointmentTime accepted by the date parser) whose derived
(location, appointmentTime) key matches no record in the store, and whose
query and put both succeed (no injected failure, fresh uuid unused, uuid
non-empty as `uuid.v4` guarantees), the handler returns 200 with body message
"Appointment created successfully", the created record appended to the store,
a non-empty `appointment.id`, and `appointment.locationTimeKey` equal to the
location, "#", and the raw appointmentTime string concatenated. -/
theorem create_valid_fresh_200 (data : Payload) (deps : Deps) (store : List Item)
    (hmiss : requiredFields.find? (fun f => !(data.get f).truthy) = none)
    (hserv : data.services.servicesOk = true)
    (hdate : deps.dateOk data.appointmentTime.interp = true)
    (hq : deps.queryShouldFail = none)
    (hconf : store.filter (fun it => it.locationTimeKey == locationTimeKey data) = [])
    (hput : deps.putShouldFail = none)
    (hfresh : store.any (fun it => it.id == deps.freshId) = false)
    (hid : deps.freshId ≠ "") :
    handler (.direct data) deps store =
      ⟨⟨200, jsonHeaders,
        .created "Appointment created successfully" deps.freshId (mkItem data deps)⟩,
       store ++ [mkItem data deps], 1⟩ ∧
    (mkItem data deps).id ≠ "" ∧
    (mkItem data deps).locationTimeKey =
      data.location.interp ++ "#" ++ data.appointmentTime.interp := by
  refine ⟨?_, hid, rfl⟩
  simp only [handler, handleData, conflictAndWrite, putResult, mkItem, hmiss, hserv, hdate,
    hq, hconf, hput, hfresh, List.length_nil, if_true, if_false, Bool.false_eq_true,
    gt_iff_lt, Nat.lt_irrefl]

/-- C1 witness: the Jane Doe request against the empty store with healthy
collaborators yields 200, the success message, and locationTimeKey
"Farrish Subaru#2025-04-20T15:30:00Z". -/
theorem create_valid_fresh_200_witness :
    handler (.direct janeDoe) janeDeps [] =
      ⟨⟨200, jsonHeaders,
        .created "Appointment created successfully" janeDeps.freshId (mkItem janeDoe janeDeps)⟩,
       [] ++ [mkItem janeDoe janeDeps], 1⟩ ∧
    (mkItem janeDoe janeDeps).id ≠ "" ∧
    (mkItem janeDoe janeDeps).locationTimeKey = "Farrish Subaru#2025-04-20T15:30:00Z" := by
  have h := create_valid_fresh_200 janeDoe janeDeps []
    (by decide) (by decide) rfl rfl rfl rfl rfl (by decide)
  exact ⟨h.1, h.2.1, by decide⟩

/-- C2: For every request passing validation, if the conflict-check query
succeeds (no injected failure) and the store holds at least one record whose
locationTimeKey equals the derived key, the handler returns 409 with body
message "This appointment time is already booked at this location", leaves
the store unchanged, and attempts no put. -/
theorem conflict_returns_409 (data : Payload) (deps : Deps) (store : List Item)
    (hmiss : requiredFields.find? (fun f => !(data.get f).truthy) = none)
    (hserv : data.services.servicesOk = true)
    (hdate : deps.dateOk data.appointmentTime.interp = true)
    (hq : deps.queryShouldFail = none)
    (hconf : (store.filter (fun it => it.locationTimeKey == locationTimeKey data)).length > 0) :
    handler (.direct data) deps store =
      ⟨⟨409, jsonHeaders, .msg "This appointment time is already booked at this location"⟩,
       store, 0⟩ := by
  simp only [handler, handleData, conflictAndWrite, hmiss, hserv, hdate, hq, if_true]
  rw [if_pos hconf]

/-- C2 witness: replaying the Jane Doe request against a store already
holding the Jane Doe record yields 409, the fixed message, the unchanged
store, and zero put calls. -/
theorem conflict_returns_409_witness :
    handler (.direct janeDoe) janeDeps [mkItem janeDoe janeDeps] =
      ⟨⟨409, jsonHeaders, .msg "This appointment time is already booked at this location"⟩,
       [mkItem janeDoe janeDeps], 0⟩ :=
  conflict_returns_409 janeDoe janeDeps [mkItem janeDoe janeDeps]
    (by decide) (by decide) rfl rfl (by decide)

/-- C4: For every request passing validation, if the conflict-check query
itself fails, the handler returns 500 with body message "Could not process
appointment request" together with the store-provided error message and
code, the current time, the table name and the query parameters, leaves the
store unchanged, and attempts no put. -/
theorem query_failure_500 (data : Payload) (deps : Deps) (store : List Item) (e : StoreError)
    (hmiss : requiredFields.find? (fun f => !(data.get f).truthy) = none)
    (hserv : data.services.servicesOk = true)
    (hdate : deps.dateOk data.appointmentTime.interp = true)
    (hq : deps.queryShouldFail = some e) :
    handler (.direct data) deps store =
      ⟨⟨500, jsonHeaders,
        .queryFail "Could not process appointment request" e.message e.code deps.now
          deps.tableName (mkQueryParams deps.tableName (locationTimeKey data))⟩,
       store, 0⟩ := by
  simp only [handler, handleData, conflictAndWrite, hmiss, hserv, hdate, hq, if_true]

/-- Store error detail used by the query-failure witness run. -/
def qfailError : StoreError :=
  ⟨"Requested resource not found", "ResourceNotFoundException"⟩

/-- Collaborators whose conflict-check query fails with `qfailError`. -/
def qfailDeps : Deps :=
  ⟨"service-appointment-api-dev", some qfailError, none, "2025-04-01T00:00:00.000Z",
   "test-uuid-12345", fun _ => true⟩

/-- C4 witness: the Jane Doe request with a failing query yields 500, the
query-failure message with the injected detail, an unchanged store, and
zero put calls. -/
theorem query_failure_500_witness :
    handler (.direct janeDoe) qfailDeps [] =
      ⟨⟨500, jsonHeaders,
        .queryFail "Could not process appointment request" qfailError.message qfailError.code
          qfailDeps.now qfailDeps.tableName
          (mkQueryParams qfailDeps.tableName (locationTimeKey janeDoe))⟩,
       [], 0⟩ :=
  query_failure_500 janeDoe qfailDeps [] qfailError (by decide) (by decide) rfl rfl

/-- C8: For every decoded payload whose five required fields are all truthy
but whose services value fails `Array.isArray(...) && length > 0`, the
handler returns 400 with body message "Services must be a non-empty array"
and an unchanged store; the statement quantifies over every date parser, so
the response is the same even when appointmentTime would not parse. -/
theorem services_shape_400 (data : Payload) (deps : Deps) (store : List Item)
    (hmiss : requiredFields.find? (fun f => !(data.get f).truthy) = none)
    (hshape : data.services.servicesOk = false) :
    handler (.direct data) deps store =
      ⟨badRequest "Services must be a non-empty array", store, 0⟩ := by
  simp only [handler, handleData, hmiss, hshape, Bool.false_eq_true, if_false]

/-- Payload whose services is a truthy non-array and whose appointmentTime
is not a parseable date. -/
def badServicesPayload : Payload :=
  ⟨.str "John Smith", .str "Downtown Garage", .str "not-a-date",
   .str "Honda Civic", .str "Oil Change"⟩

/-- Collaborators whose date parser rejects every string. -/
def noDateDeps : Deps :=
  ⟨"service-appointment-api-dev", none, none, "2025-04-01T00:00:00.000Z",
   "test-uuid-12345", fun _ => false⟩

/-- C8 witness: a payload with a truthy non-array services value and an
unparseable appointmentTime, run with a date parser rejecting everything,
gets the services-shape 400, showing the shape check precedes temporal
validation. -/
theorem services_shape_400_witness :
    handler (.direct badServicesPayload) noDateDeps [] =
      ⟨badRequest "Services must be a non-empty array", [], 0⟩ :=
  services_shape_400 badServicesPayload noDateDeps [] (by decide) (by decide)

/-- C9: For every decoded payload whose first non-truthy required field (in
the fixed iteration order) is present but bound to a falsy value such as the
empty string, the handler returns 400 reporting that field as missing: the
presence check `!data[field]` does not distinguish an absent field from a
present falsy one. -/
theorem falsy_field_reported_missing (data : Payload) (deps : Deps) (store : List Item)
    (f : String)
    (hfind : requiredFields.find? (fun x => !(data.get x).truthy) = some f)
    (_hpres : data.get f ≠ .undefined) :
    handler (.direct data) deps store =
      ⟨badRequest ("Missing required field: " ++ f), store, 0⟩ := by
  simp only [handler, handleData, hfind]

/-- Payload whose fullName is present but the empty string. -/
def emptyNamePayload : Payload :=
  ⟨.str "", .str "Downtown Garage", .str "2025-05-01T10:00:00Z",
   .str "Honda Civic", .arr ["Oil Change"]⟩

/-- C9 witness: a payload with `fullName: ""` (present, falsy) is answered
with 400 "Missing required field: fullName". -/
theorem falsy_field_reported_missing_witness :
    handler (.direct emptyNamePayload) janeDeps [] =
      ⟨badRequest "Missing required field: fullName", [], 0⟩ :=
  falsy_field_reported_missing emptyNamePayload janeDeps [] "fullName" (by decide) (by decide)

/-- A truthy value that is a string is a non-empty string. -/
theorem JsVal.truthy_str_ne {v : JsVal} (h : v.truthy = true) :
    ∀ s, v = .str s → s ≠ "" := by
  intro s hs
  subst hs
  simpa [JsVal.truthy] using h

/-- Characterization of one pipeline run on a decoded payload: either the
outcome is not 200 and the store is untouched, or the outcome is 200,
reached only with every required field truthy, a well-shaped services
array and no key match in the store, and exactly the constructed record is
appended. -/
theorem handleData_char (data : Payload) (deps : Deps) (store : List Item) :
    ((handleData data deps store).response.statusCode ≠ 200 ∧
     (handleData data deps store).store = store) ∨
    ((handleData data deps store).response.statusCode = 200 ∧
     requiredFields.find? (fun f => !(data.get f).truthy) = none ∧
     data.services.servicesOk = true ∧
     (store.filter (fun it => it.locationTimeKey == locationTimeKey data)).length = 0 ∧
     (handleData data deps store).store = store ++ [mkItem data deps]) := by
  cases hfind : requiredFields.find? (fun f => !(data.get f).truthy) with
  | some f =>
    left
    constructor <;> simp [handleData, hfind, badRequest]
  | none =>
    cases hserv : data.services.servicesOk with
    | false =>
      left
      constructor <;> simp [handleData, hfind, hserv, badRequest]
    | true =>
      cases hdate : deps.dateOk data.appointmentTime.interp with
      | false =>
        left
        constructor <;> simp [handleData, hfind, hserv, hdate, badRequest]
      | true =>
        cases hq : deps.queryShouldFail with
        | some e =>
          left
          constructor <;> simp [handleData, conflictAndWrite, hfind, hserv, hdate, hq]
        | none =>
          by_cases hgt :
              (store.filter (fun it => it.locationTimeKey == locationTimeKey data)).length > 0
          · left
            constructor <;> simp [handleData, conflictAndWrite, hfind, hserv, hdate, hq, hgt]
          · cases hput : deps.putShouldFail with
            | some e =>
              left
              constructor <;>
                simp [handleData, conflictAndWrite, putResult, hfind, hserv, hdate, hq, hput, hgt]
            | none =>
              by_cases hany : (store.any fun it => it.id == (mkItem data deps).id) = true
              · left
                constructor <;>
                  simp [handleData, conflictAndWrite, putResult, hfind, hserv, hdate, hq,
                    hput, hgt, hany]
              · right
                have hres : handleData data deps store =
                    ⟨⟨200, jsonHeaders,
                      .created "Appointment created successfully" deps.freshId (mkItem data deps)⟩,
                     store ++ [mkItem data deps], 1⟩ := by
                  simp only [handleData, conflictAndWrite, putResult, hfind, hserv, hdate, hq,
                    hput, if_true]
                  rw [if_neg hgt, if_neg hany]
                exact ⟨by rw [hres], rfl, rfl, Nat.eq_zero_of_not_pos hgt, by rw [hres]⟩

/-- C5: For every invocation whose response status is not 200 — any decode
failure, validation failure, conflict, query failure or write failure — the
store after the invocation equals the store before it. -/
theorem failure_leaves_store_unchanged (ev : Event) (deps : Deps) (store : List Item)
    (h : (handler ev deps store).response.statusCode ≠ 200) :
    (handler ev deps store).store = store := by
  cases ev with
  | direct data =>
    rcases handleData_char data deps store with ⟨_, hs⟩ | ⟨h200, _⟩
    · exact hs
    · exact absurd h200 h
  | encoded o =>
    cases o with
    | none => rfl
    | some data =>
      rcases handleData_char data deps store with ⟨_, hs⟩ | ⟨h200, _⟩
      · exact hs
      · exact absurd h200 h

/-- C5 witness: a 400-producing run (payload with an empty fullName) leaves
the empty store empty. -/
theorem failure_leaves_store_unchanged_witness :
    (handler (.direct emptyNamePayload) janeDeps []).store = [] :=
  failure_leaves_store_unchanged (.direct emptyNamePayload) janeDeps [] (by decide)

/-- Payload with a present-but-empty fullName and a genuinely absent
location: the first absent field is location, yet the handler reports
fullName. -/
def absentLocationPayload : Payload :=
  ⟨.str "", .undefined, .str "2025-05-01T10:00:00Z", .str "Honda Civic", .arr ["Oil Change"]⟩

/-- C6 counterexample: for this payload, location is the (first and only)
absent field, but the handler's 400 message names fullName — the present
field whose value is falsy — so the message does not name the first absent
field. -/
theorem missing_field_first_absent_cex :
    absentLocationPayload.get "location" = .undefined ∧
    requiredFields.find? (fun f => absentLocationPayload.get f == .undefined) = some "location" ∧
    (handler (.direct absentLocationPayload) janeDeps []).response =
      badRequest "Missing required field: fullName" ∧
    (handler (.direct absentLocationPayload) janeDeps []).response ≠
      badRequest "Missing required field: location" := by
  refine ⟨rfl, rfl, rfl, ?_⟩
  decide

/-- C6 amended: for every decoded payload with at least one absent required
field, the handler returns 400 with message "Missing required field: X",
where X is the first field in the fixed iteration order whose value fails
the truthiness presence check (absent or falsy) — not necessarily the first
absent field. -/
theorem missing_field_400 (data : Payload) (deps : Deps) (store : List Item) (f : String)
    (hmem : f ∈ requiredFields) (habs : data.get f = .undefined) :
    ∃ g, requiredFields.find? (fun x => !(data.get x).truthy) = some g ∧
      handler (.direct data) deps store =
        ⟨badRequest ("Missing required field: " ++ g), store, 0⟩ := by
  have hsome : (requiredFields.find? (fun x => !(data.get x).truthy)).isSome := by
    rw [List.find?_isSome]
    refine ⟨f, hmem, ?_⟩
    rw [habs]
    rfl
  obtain ⟨g, hg⟩ := Option.isSome_iff_exists.mp hsome
  exact ⟨g, hg, by simp only [handler, handleData, hg]⟩

/-- Payload with fullName genuinely absent. -/
def absentNamePayload : Payload :=
  ⟨.undefined, .str "Downtown Garage", .str "2025-05-01T10:00:00Z",
   .str "Honda Civic", .arr ["Oil Change"]⟩

/-- C6 witness: a payload with fullName absent is answered with 400
"Missing required field: fullName". -/
theorem missing_field_400_witness :
    ∃ g, requiredFields.find? (fun x => !(absentNamePayload.get x).truthy) = some g ∧
      handler (.direct absentNamePayload) janeDeps [] =
        ⟨badRequest ("Missing required field: " ++ g), [], 0⟩ :=
  missing_field_400 absentNamePayload janeDeps [] "fullName" (by decide) (by decide)

/-- All five required fields of a record are truthy, services is a
non-empty array, and any of fullName, location, car that is a string is a
non-empty string. -/
def Item.fieldsTruthy (it : Item) : Prop :=
  it.fullName.truthy = true ∧ it.location.truthy = true ∧
  it.appointmentTime.truthy = true ∧ it.car.truthy = true ∧
  it.services.servicesOk = true ∧
  (∀ s, it.fullName = .str s → s ≠ "") ∧
  (∀ s, it.location = .str s → s ≠ "") ∧
  (∀ s, it.car = .str s → s ≠ "")

/-- Payload whose car field is the (truthy) number 42 rather than a
string. -/
def numberCarPayload : Payload :=
  ⟨.str "John Smith", .str "Downtown Garage", .str "2025-05-01T10:00:00Z",
   .other true "42", .arr ["Inspection"]⟩

/-- C7 counterexample: a request whose car value is the number 42 passes
validation (the check is only truthiness), is persisted with a 200, and the
persisted record's car is not a string — so "fullName, location and car are
non-empty free-text strings for every record the handler writes" fails. -/
theorem persisted_nonstring_car_cex :
    (handler (.direct numberCarPayload) janeDeps []).response.statusCode = 200 ∧
    (handler (.direct numberCarPayload) janeDeps []).store =
      [mkItem numberCarPayload janeDeps] ∧
    (∀ s : String, (mkItem numberCarPayload janeDeps).car ≠ .str s) := by
  refine ⟨by decide, by decide, fun s h => ?_⟩
  exact JsVal.noConfusion h

/-- C7 amended: every record present in the store after an invocation was
either already there or has all five required fields truthy (services a
non-empty array); fullName, location and car are non-empty whenever they
are strings, but the handler does not enforce that they are strings. -/
theorem persisted_record_fields (ev : Event) (deps : Deps) (store : List Item) (it : Item)
    (hmem : it ∈ (handler ev deps store).store) :
    it ∈ store ∨ it.fieldsTruthy := by
  have main : ∀ data : Payload, it ∈ (handleData data deps store).store →
      it ∈ store ∨ it.fieldsTruthy := by
    intro data hm
    rcases handleData_char data deps store with ⟨_, hs⟩ | ⟨_, hfind, hserv, _, hs⟩
    · rw [hs] at hm
      exact Or.inl hm
    · rw [hs] at hm
      rcases List.mem_append.mp hm with hin | hone
      · exact Or.inl hin
      · right
        have hit : it = mkItem data deps := List.mem_singleton.mp hone
        subst hit
        have hall := List.find?_eq_none.mp hfind
        have h1 := hall "fullName" (by decide)
        have h2 := hall "location" (by decide)
        have h3 := hall "appointmentTime" (by decide)
        have h4 := hall "car" (by decide)
        simp only [Payload.get, Bool.not_eq_eq_eq_not, Bool.not_true, Bool.not_eq_false] at h1 h2 h3 h4
        refine ⟨h1, h2, h3, h4, hserv, ?_, ?_, ?_⟩
        · exact JsVal.truthy_str_ne h1
        · exact JsVal.truthy_str_ne h2
        · exact JsVal.truthy_str_ne h4
  cases ev with
  | direct data => exact main data hmem
  | encoded o =>
    cases o with
    | none => exact Or.inl hmem
    | some data => exact main data hmem

/-- C7 witness: the record persisted by the Jane Doe run satisfies the
amended invariant. -/
theorem persisted_record_fields_witness :
    mkItem janeDoe janeDeps ∈ ([] : List Item) ∨ (mkItem janeDoe janeDeps).fieldsTruthy :=
  persisted_record_fields (.direct janeDoe) janeDeps [] (mkItem janeDoe janeDeps) (by decide)

/-- Every pipeline outcome on a decoded payload has one of the four status
codes and the JSON content-type header. -/
theorem handleData_classified (data : Payload) (deps : Deps) (store : List Item) :
    ((handleData data deps store).response.statusCode = 200 ∨
     (handleData data deps store).response.statusCode = 400 ∨
     (handleData data deps store).response.statusCode = 409 ∨
     (handleData data deps store).response.statusCode = 500) ∧
    (handleData data deps store).response.headers = jsonHeaders := by
  simp only [handleData, conflictAndWrite, putResult]
  repeat' split
  all_goals constructor
  all_goals simp [badRequest]

/-- C10: For every event, store, clock, id-generator and parser behavior,
the handler returns a response whose status code is 200, 400, 409 or 500
and whose headers are exactly the single JSON content-type pair; and any
unclassified error reaching the outermost catch is mapped to a 500 response
with the same headers and body message "Internal server error" carrying the
error's message, stack and the current time. -/
theorem handler_response_classified :
    (∀ (ev : Event) (deps : Deps) (store : List Item),
      ((handler ev deps store).response.statusCode = 200 ∨
       (handler ev deps store).response.statusCode = 400 ∨
       (handler ev deps store).response.statusCode = 409 ∨
       (handler ev deps store).response.statusCode = 500) ∧
      (handler ev deps store).response.headers = jsonHeaders) ∧
    (∀ (e : JsError) (now : String),
      (internalErrorResponse e now).statusCode = 500 ∧
      (internalErrorResponse e now).headers = jsonHeaders ∧
      (internalErrorResponse e now).body =
        .internalFail "Internal server error" e.message e.stack now) := by
  constructor
  · intro ev deps store
    cases ev with
    | direct data => exact handleData_classified data deps store
    | encoded o =>
      cases o with
      | none => exact ⟨Or.inr (Or.inl rfl), rfl⟩
      | some data => exact handleData_classified data deps store
  · intro e now
    exact ⟨rfl, rfl, rfl⟩

/-- C3: The handler is not idempotent. For any two sequentially processed
requests whose payloads share the same location and appointmentTime values,
if the first returns 200 (committing its record), then the second — passing
validation with a healthy query — returns 409 with the conflict message,
makes no put call, and creates no additional record. -/
theorem replay_conflict_409 (data1 data2 : Payload) (deps1 deps2 : Deps) (store : List Item)
    (h200 : (handler (.direct data1) deps1 store).response.statusCode = 200)
    (hloc : data2.location = data1.location)
    (htime : data2.appointmentTime = data1.appointmentTime)
    (hmiss : requiredFields.find? (fun f => !(data2.get f).truthy) = none)
    (hserv : data2.services.servicesOk = true)
    (hdate : deps2.dateOk data2.appointmentTime.interp = true)
    (hq : deps2.queryShouldFail = none) :
    handler (.direct data2) deps2 ((handler (.direct data1) deps1 store).store) =
      ⟨⟨409, jsonHeaders, .msg "This appointment time is already booked at this location"⟩,
       (handler (.direct data1) deps1 store).store, 0⟩ := by
  rcases handleData_char data1 deps1 store with ⟨hne, _⟩ | ⟨_, _, _, _, hs⟩
  · exact absurd h200 hne
  · have hstore1 : (handler (.direct data1) deps1 store).store =
        store ++ [mkItem data1 deps1] := hs
    have hkey : locationTimeKey data2 = locationTimeKey data1 := by
      unfold locationTimeKey
      rw [hloc, htime]
    have hconf : ((store ++ [mkItem data1 deps1]).filter
        (fun it => it.locationTimeKey == locationTimeKey data2)).length > 0 := by
      have hx : ((mkItem data1 deps1).locationTimeKey == locationTimeKey data2) = true := by
        simp [mkItem, hkey]
      rw [List.filter_append, List.length_append]
      simp [List.filter_singleton, hx]
    rw [hstore1]
    simp only [handler, handleData, conflictAndWrite, hmiss, hserv, hdate, hq, if_true]
    rw [if_pos hconf]

/-- C3 witness: running the Jane Doe request twice in sequence from the
empty store gives a 409 with the conflict message on the second run and no
second record. -/
theorem replay_conflict_409_witness :
    handler (.direct janeDoe) janeDeps ((handler (.direct janeDoe) janeDeps []).store) =
      ⟨⟨409, jsonHeaders, .msg "This appointment time is already booked at this location"⟩,
       (handler (.direct janeDoe) janeDeps []).store, 0⟩ :=
  replay_conflict_409 janeDoe janeDoe janeDeps janeDeps []
    (by decide) rfl rfl (by decide) (by decide) rfl rfl
